import Mathlib

/-!
Verification of the personalization pipeline of the aidhp-aimonarchs backend:
eligibility filtering, heuristic pre-ranking, generative-advisor orchestration,
recommendation lifecycle, and the insight/anomaly/prediction pipeline.

The Python services are shallowly embedded as executable Lean functions.
Dictionary fields that may be absent become `Option` fields; `dict.get(k, d)`
becomes `Option.getD`; MongoDB timestamps become `Nat` (days); monetary
amounts and confidences become `Rat`; the external generative model and the
document store are inputs (the remote transport is an `Except`, a raised
exception is an `Except.error` result).
-/

namespace Aidhp

/-! ## Data model

`Product.eligibility` mirrors the `eligibility` sub-document of a product:
every criterion may be absent (`app/db/product_operations.py`,
`app/utils/mock_data.py`). -/

structure Eligibility where
  min_income : Option Rat
  min_credit_score : Option Int
  risk_level : Option String
  target_age_min : Option Int
  target_age_max : Option Int
  deriving DecidableEq, Repr

structure Product where
  product_id : String
  name : String
  category : String
  description : String
  features : List String
  eligibility : Eligibility
  is_active : Bool
  deriving DecidableEq, Repr

structure FinancialGoal where
  type : String
  deriving DecidableEq, Repr

structure FinancialProfile where
  monthly_income : Option Rat
  credit_score : Option Int
  risk_profile : Option String
  debt : Option Rat
  deriving DecidableEq, Repr

structure PersonalProfile where
  age : Option Int
  deriving DecidableEq, Repr

structure Insight where
  insight_id : String
  category : String
  description : String
  importance : String
  created_at : Option Nat
  expires_at : Option Nat
  is_read : Bool
  is_acted_upon : Option Bool
  deriving DecidableEq, Repr

structure Anomaly where
  anomaly_id : Option String
  category : String
  description : String
  severity : String
  amount : Option Rat
  detection_date : Option Nat
  is_acknowledged : Option Bool
  deriving DecidableEq, Repr

structure PredictedExpense where
  expense_id : String
  description : String
  amount : Rat
  due_date : Nat
  category : String
  confidence : Rat
  is_recurring : Bool
  deriving DecidableEq, Repr

structure User where
  user_id : String
  financial_profile : FinancialProfile
  profile : PersonalProfile
  preferred_categories : List String
  financial_goals : List FinancialGoal
  insights : List Insight
  anomalies : List Anomaly
  predicted_expenses : List PredictedExpense
  deriving DecidableEq, Repr

structure Transaction where
  transaction_id : String
  amount : Rat
  category : String
  merchant : String
  description : Option String
  timestamp : Option Nat
  deriving DecidableEq, Repr

/-! ## Python string primitives

`str.strip()` and `str.lower()` re-implemented over character lists so that
every definition evaluates inside the kernel. -/

def isSpaceChar (c : Char) : Bool :=
  c == ' ' || c == '\t' || c == '\n' || c == '\r'

/-- Python `str.strip()`. -/
def pyStrip (s : String) : String :=
  String.mk (((s.toList.dropWhile isSpaceChar).reverse.dropWhile isSpaceChar).reverse)

def lowerChar (c : Char) : Char :=
  if 65 ≤ c.toNat ∧ c.toNat ≤ 90 then Char.ofNat (c.toNat + 32) else c

/-- Python `str.lower()` (ASCII letters). -/
def pyLower (s : String) : String :=
  String.mk (s.toList.map lowerChar)

/-! ## Eligibility Filter

`ProductOperations.get_products_by_eligibility` builds a MongoDB query.  For a
user attribute that is provided (`is not None`), the query adds a condition on
the corresponding `eligibility.*` field.  Under MongoDB semantics a
`$lte`/equality condition on a field only matches documents in which the field
exists, so an absent `min_income`, `min_credit_score` or `risk_level` fails the
condition; only the two age bounds are wrapped in an explicit
`$or [$exists false, ...]` and therefore never exclude when absent. -/

def matchesEligibilityQuery (income : Option Rat) (credit_score : Option Int)
    (risk_level : Option String) (age : Option Int) (p : Product) : Bool :=
  p.is_active &&
  (match income with
   | none => true
   | some inc =>
     match p.eligibility.min_income with
     | none => false
     | some m => decide (m ≤ inc)) &&
  (match credit_score with
   | none => true
   | some cs =>
     match p.eligibility.min_credit_score with
     | none => false
     | some m => decide (m ≤ cs)) &&
  (match risk_level with
   | none => true
   | some r => p.eligibility.risk_level == some r) &&
  (match age with
   | none => true
   | some a =>
     (match p.eligibility.target_age_min with
      | none => true
      | some m => decide (m ≤ a)) &&
     (match p.eligibility.target_age_max with
      | none => true
      | some m => decide (a ≤ m)))

/-- `ProductOperations.get_products_by_eligibility`: all active products of the
catalog matching the query built from the provided user attributes. -/
def get_products_by_eligibility (catalog : List Product) (income : Option Rat)
    (credit_score : Option Int) (risk_level : Option String) (age : Option Int) :
    List Product :=
  catalog.filter (matchesEligibilityQuery income credit_score risk_level age)

/-- `ProductOperations.get_products` with `active_only=True`. -/
def get_products_active (catalog : List Product) : List Product :=
  catalog.filter (·.is_active)

/-- Follows the words of the spec sentence for the Eligibility Filter: a
product is included iff it is active and every eligibility criterion that is
set on the product is satisfied by the user; a criterion absent on the product
never excludes the product. -/
def eligibleSpec (income : Rat) (credit_score : Int) (risk_profile : String)
    (age : Int) (p : Product) : Bool :=
  p.is_active &&
  (p.eligibility.min_income.all fun m => decide (m ≤ income)) &&
  (p.eligibility.min_credit_score.all fun m => decide (m ≤ credit_score)) &&
  (p.eligibility.risk_level.all fun r => r == risk_profile) &&
  (p.eligibility.target_age_min.all fun m => decide (m ≤ age)) &&
  (p.eligibility.target_age_max.all fun m => decide (age ≤ m))

/-! ## Heuristic Scorer

`EnhancedRecommendationService._basic_eligibility_score`.  User and product
values are read with the same defaults as the Python `dict.get` calls
(0 for numbers, the empty string for the risk levels, 0/999 for the age
bounds). -/

def goalCategoryAligns (product_category : String) (goal_type : String) : Bool :=
  (product_category == "savings" &&
    (goal_type == "emergency_fund" || goal_type == "savings")) ||
  (product_category == "investments" &&
    (goal_type == "retirement" || goal_type == "investment")) ||
  (product_category == "loans" &&
    (goal_type == "home_purchase" || goal_type == "car_purchase"))

def basic_eligibility_score (product : Product) (user : User) : Int :=
  let income := user.financial_profile.monthly_income.getD 0
  let credit_score := user.financial_profile.credit_score.getD 0
  let risk_level := pyLower (user.financial_profile.risk_profile.getD "")
  let age := user.profile.age.getD 0
  let min_income := product.eligibility.min_income.getD 0
  let min_credit_score := product.eligibility.min_credit_score.getD 0
  let product_risk_level := pyLower (product.eligibility.risk_level.getD "")
  let target_age_min := product.eligibility.target_age_min.getD 0
  let target_age_max := product.eligibility.target_age_max.getD 999
  let score : Int := 0
  let score := if min_income > 0 ∧ income ≥ min_income then score + 1 else score
  let score :=
    if min_credit_score > 0 ∧ credit_score ≥ min_credit_score then score + 1 else score
  let score :=
    if product_risk_level ≠ "" ∧ risk_level = product_risk_level then score + 2 else score
  let score := if age ≥ target_age_min ∧ age ≤ target_age_max then score + 1 else score
  let score := if product.category ∈ user.preferred_categories then score + 3 else score
  let product_category := pyLower product.category
  let score :=
    if user.financial_goals.any fun g => goalCategoryAligns product_category (pyLower g.type)
    then score + 2 else score
  score

/-- Follows the words of claim C7: unguarded additive rule set with weights
+1 income, +1 credit, +2 risk, +1 age, +3 preferred category, +2 first
aligned goal, reading absent values with the same dictionary defaults. -/
def specHeuristicScore (product : Product) (user : User) : Int :=
  (if user.financial_profile.monthly_income.getD 0 ≥ product.eligibility.min_income.getD 0
   then (1:Int) else 0) +
  (if user.financial_profile.credit_score.getD 0 ≥ product.eligibility.min_credit_score.getD 0
   then 1 else 0) +
  (if user.financial_profile.risk_profile.getD "" = product.eligibility.risk_level.getD ""
   then 2 else 0) +
  (if user.profile.age.getD 0 ≥ product.eligibility.target_age_min.getD 0 ∧
      user.profile.age.getD 0 ≤ product.eligibility.target_age_max.getD 999
   then 1 else 0) +
  (if product.category ∈ user.preferred_categories then 3 else 0) +
  (if user.financial_goals.any fun g =>
       goalCategoryAligns (pyLower product.category) (pyLower g.type)
   then 2 else 0)

/-- The amended C7 rule set: the income and credit bonuses require the product
to set a positive minimum, the risk bonus requires a non-empty product risk
level and compares case-insensitively, the age bonus uses defaults 0 and 999,
and the goal bonus is granted once if any goal aligns. -/
def amendedHeuristicScore (product : Product) (user : User) : Int :=
  (if product.eligibility.min_income.getD 0 > 0 ∧
      user.financial_profile.monthly_income.getD 0 ≥ product.eligibility.min_income.getD 0
   then 1 else 0) +
  (if product.eligibility.min_credit_score.getD 0 > 0 ∧
      user.financial_profile.credit_score.getD 0 ≥ product.eligibility.min_credit_score.getD 0
   then 1 else 0) +
  (if pyLower (product.eligibility.risk_level.getD "") ≠ "" ∧
      pyLower (user.financial_profile.risk_profile.getD "") =
        pyLower (product.eligibility.risk_level.getD "")
   then 2 else 0) +
  (if user.profile.age.getD 0 ≥ product.eligibility.target_age_min.getD 0 ∧
      user.profile.age.getD 0 ≤ product.eligibility.target_age_max.getD 999
   then 1 else 0) +
  (if product.category ∈ user.preferred_categories then 3 else 0) +
  (if user.financial_goals.any fun g =>
       goalCategoryAligns (pyLower product.category) (pyLower g.type)
   then 2 else 0)

/-! ## Generative Advisor Adapter (`GenAIService`)

The two `client.models.generate_content` transport calls of
`generate_product_recommendation` are not inside any `try`, so a transport
failure raises out of the method (`Except.error`); only the score parsing is
wrapped in `try/except` and falls back to 75. -/

structure AdvisorReply where
  recommendation_text : String
  score : Int
  deriving DecidableEq, Repr

/-- Value of the concatenated digit characters of a string. -/
def digitsValue (cs : List Char) : Nat :=
  cs.foldl (fun acc c => acc * 10 + (c.toNat - 48)) 0

/-- The `try` block of `generate_product_recommendation`:
`int(''.join(c for c in score_text if c.isdigit()))` clamped into 0..100;
on failure (`int` of an empty string) the default 75. -/
def parseScore (raw : String) : Int :=
  let score_text := pyStrip raw
  let digits := score_text.toList.filter Char.isDigit
  if digits.isEmpty then 75
  else max 0 (min (Int.ofNat (digitsValue digits)) 100)

/-- `GenAIService.generate_product_recommendation`.
`textResponse` / `scoreResponse` are the two remote calls, in program order;
an `Except.error` is a transport failure raised by `generate_content`. -/
def generate_product_recommendation (textResponse scoreResponse : Except Unit String) :
    Except Unit AdvisorReply :=
  match textResponse with
  | Except.error e => Except.error e
  | Except.ok text =>
    match scoreResponse with
    | Except.error e => Except.error e
    | Except.ok score_text =>
      Except.ok { recommendation_text := pyStrip text, score := parseScore score_text }

structure SentimentResult where
  overall_sentiment : String
  confidence : Rat
  financial_health : String
  explanation : String
  deriving DecidableEq, Repr

/-- The parsed JSON object of `analyze_sentiment`, before the required-field
defaulting of lines 263-267 of `genai_services.py`. -/
structure ParsedSentiment where
  overall_sentiment : Option String
  confidence : Option Rat
  financial_health : Option String
  explanation : Option String
  deriving DecidableEq, Repr

def fillSentimentDefaults (d : ParsedSentiment) : SentimentResult :=
  { overall_sentiment := d.overall_sentiment.getD "unknown"
    confidence := d.confidence.getD (1/2)
    financial_health := d.financial_health.getD "unknown"
    explanation := d.explanation.getD "unknown" }

/-- `GenAIService.analyze_sentiment`.  `remote` is the transport call (outside
the `try`, so its failure raises); its payload is the outcome of JSON
extraction/parsing inside the `try`, an `Except` whose error carries the
exception text. -/
def analyze_sentiment (transactions : List Transaction)
    (remote : Except Unit (Except String ParsedSentiment)) :
    Except Unit SentimentResult :=
  if transactions.isEmpty then
    Except.ok { overall_sentiment := "neutral", confidence := 1/2,
                financial_health := "stable",
                explanation := "Not enough transaction data to analyze." }
  else
    match remote with
    | Except.error e => Except.error e
    | Except.ok parsed =>
      match parsed with
      | Except.error msg =>
        Except.ok { overall_sentiment := "neutral", confidence := 1/2,
                    financial_health := "stable",
                    explanation := "Could not analyze sentiment: " ++ msg }
      | Except.ok d => Except.ok (fillSentimentDefaults d)

/-! ## Recommendation Orchestrator
(`EnhancedRecommendationService.generate_recommendations`)

The advisor is an input `advisor : List Transaction → Product → Except Unit
AdvisorReply` (one `generate_product_recommendation` outcome per candidate; an
`Except.error` is the per-candidate exception caught by the `try` of the
loop).  The `uuid.uuid4()` for an accepted candidate is modelled by an opaque
id source `fresh : Product → String`. -/

structure RecMetadata where
  genai_generated : Bool
  generation_time : Nat
  is_refresh : Option Bool
  deriving DecidableEq, Repr

structure Feedback where
  is_helpful : Option Bool
  feedback_date : Option Nat
  deriving DecidableEq, Repr

structure Conversion where
  is_converted : Bool
  conversion_date : Option Nat
  deriving DecidableEq, Repr

structure Recommendation where
  recommendation_id : String
  user_id : String
  product_id : String
  product_name : String
  product_category : String
  score : Int
  reason : String
  timestamp : Nat
  expires_at : Nat
  is_viewed : Bool
  is_clicked : Bool
  features : List String
  metadata : RecMetadata
  feedback : Feedback
  conversion : Conversion
  updated_at : Option Nat
  deriving DecidableEq, Repr

/-- The recommendation record assembled at lines 111-136 of
`enhanced_recommendation.py` (expiry `now + 30` days, zeroed tracking
fields). -/
def mkRecommendation (rid uid : String) (p : Product) (text : String)
    (score : Int) (now : Nat) : Recommendation :=
  { recommendation_id := rid
    user_id := uid
    product_id := p.product_id
    product_name := p.name
    product_category := p.category
    score := score
    reason := text
    timestamp := now
    expires_at := now + 30
    is_viewed := false
    is_clicked := false
    features := p.features
    metadata := { genai_generated := true, generation_time := now, is_refresh := none }
    feedback := { is_helpful := none, feedback_date := none }
    conversion := { is_converted := false, conversion_date := none }
    updated_at := none }

/-- One iteration of the candidate loop: advisor failure or a score below 60
yields `none` (the candidate is skipped), otherwise the persisted record. -/
def acceptCandidate (user : User) (transactions : List Transaction)
    (advisor : List Transaction → Product → Except Unit AdvisorReply)
    (fresh : Product → String) (now : Nat) (p : Product) :
    Option Recommendation :=
  match advisor transactions p with
  | Except.error _ => none
  | Except.ok reply =>
    if reply.score < 60 then none
    else some (mkRecommendation (fresh p) user.user_id p reply.recommendation_text
                reply.score now)

/-- The `for product in eligible_products[:max_products_to_try]` loop with its
`break` once `count` records are accepted. -/
def recommendLoop (accept : Product → Option Recommendation) (count : Nat) :
    List Product → List Recommendation → List Recommendation
  | [], acc => acc
  | p :: ps, acc =>
    if count ≤ acc.length then acc
    else
      match accept p with
      | none => recommendLoop accept count ps acc
      | some r => recommendLoop accept count ps (acc ++ [r])

/-- Stable descending sort by heuristic score
(`sorted(key=..., reverse=True)`). -/
def sortByHeuristicDesc (user : User) (ps : List Product) : List Product :=
  ps.insertionSort fun a b => basic_eligibility_score b user ≤ basic_eligibility_score a user

/-- Lines 55-69 of `enhanced_recommendation.py`: the eligibility pre-filter,
falling back to the full active catalog when it comes back empty. -/
def preFilteredProducts (user : User) (catalog : List Product) : List Product :=
  let all_products := get_products_active catalog
  let eligible := get_products_by_eligibility catalog
    user.financial_profile.monthly_income user.financial_profile.credit_score
    user.financial_profile.risk_profile user.profile.age
  if eligible.isEmpty then all_products else eligible

/-- Candidate selection of `generate_recommendations` (lines 50-86): active
catalog, eligibility pre-filter with fallback to the full active catalog,
pre-ranking when more candidates than requested, truncation to
`min(count*2, len)`. -/
def orchestratorCandidates (user : User) (catalog : List Product) (count : Nat) :
    List Product :=
  if (get_products_active catalog).isEmpty then []
  else
    let eligible := preFilteredProducts user catalog
    let eligible := if count < eligible.length then sortByHeuristicDesc user eligible
                    else eligible
    eligible.take (min (count * 2) eligible.length)

/-- `EnhancedRecommendationService.generate_recommendations`.  The returned
list is exactly the sequence of records persisted through
`RecommendationOperations.create_recommendation`. -/
def generate_recommendations (userOpt : Option User) (transactions : List Transaction)
    (catalog : List Product)
    (advisor : List Transaction → Product → Except Unit AdvisorReply)
    (fresh : Product → String) (count : Nat) (now : Nat) : List Recommendation :=
  match userOpt with
  | none => []
  | some user =>
    if (get_products_active catalog).isEmpty then []
    else
      recommendLoop (acceptCandidate user transactions advisor fresh now) count
        (orchestratorCandidates user catalog count) []

/-! ## Insight pipeline (`InsightsService.generate_user_insights`)

`GenAIService.generate_financial_insights` returns raw insight dicts; its
transport call is outside the `try` (raises, `Except.error`), its parse
failure inside the `try` returns a single generic medium insight.  Fresh
`uuid` hex fragments are an input `fresh : Nat → String` (the id of the k-th
insight built during the call). -/

structure RawInsight where
  category : Option String
  description : Option String
  importance : Option String
  deriving DecidableEq, Repr

/-- The parse-failure fallback list of `generate_financial_insights`. -/
def genaiInsightsParseFallback : List RawInsight :=
  [{ category := some "general"
     description := some "Based on your spending patterns, you may have opportunities to optimize your budget."
     importance := some "medium" }]

/-- Enrichment of one accepted raw insight (lines 63-72 of
`insights_service.py`). -/
def processInsight (idStr : String) (now : Nat) (raw : RawInsight) : Insight :=
  { insight_id := "ins" ++ idStr
    category := raw.category.getD "general"
    description := raw.description.getD ""
    importance := raw.importance.getD "medium"
    created_at := some now
    expires_at := some (now + 30)
    is_read := false
    is_acted_upon := none }

def processInsights (fresh : Nat → String) (now : Nat) (raws : List RawInsight) :
    List Insight :=
  raws.enum.map fun ip => processInsight (fresh ip.1) now ip.2

/-- The merge of lines 77-101: drop stored insights whose `expires_at` has
passed, append the new ones, and if more than 10 remain keep the 10 most
recent by `created_at` (stable descending sort, key defaulting to `now`). -/
def mergeInsights (existing : List Insight) (newInsights : List Insight) (now : Nat) :
    List Insight :=
  let active := existing.filter fun i =>
    match i.expires_at with
    | none => true
    | some e => decide (e > now)
  let combined := active ++ newInsights
  if combined.length > 10 then
    (combined.insertionSort fun a b => b.created_at.getD now ≤ a.created_at.getD now).take 10
  else combined

/-- `InsightsService._generate_fallback_insights`: a generic tracking tip,
an emergency-fund tip when no goal of that type exists, and a debt tip when
`debt > 0` and annualized income is positive and `debt > income * 0.5`. -/
def generate_fallback_insights (userOpt : Option User) (fresh : Nat → String)
    (now : Nat) : List Insight :=
  let base : List Insight :=
    [{ insight_id := "ins" ++ fresh 0
       category := "general"
       description := "Tracking your expenses regularly can help you identify spending patterns and opportunities to save."
       importance := "medium"
       created_at := some now
       expires_at := some (now + 30)
       is_read := false
       is_acted_upon := none }]
  match userOpt with
  | none => base
  | some user =>
    let has_emergency_fund :=
      user.financial_goals.any fun g => g.type == "emergency_fund"
    let base :=
      if has_emergency_fund then base
      else base ++
        [{ insight_id := "ins" ++ fresh 1
           category := "savings"
           description := "Having an emergency fund covering 3-6 months of expenses is essential for financial security."
           importance := "high"
           created_at := some now
           expires_at := some (now + 30)
           is_read := false
           is_acted_upon := none }]
    let debt := user.financial_profile.debt.getD 0
    let income := user.financial_profile.monthly_income.getD 0 * 12
    if debt > 0 ∧ income > 0 ∧ debt > income * (1/2) then
      base ++
        [{ insight_id := "ins" ++ fresh 2
           category := "debt"
           description := "Your debt-to-income ratio is high. Focusing on debt reduction can improve your financial health."
           importance := "high"
           created_at := some now
           expires_at := some (now + 30)
           is_read := false
           is_acted_upon := none }]
    else base

/-- `InsightsService.generate_user_insights`.  Inputs: the stored user (the
document-store read), the 90-day transaction window, the
`generate_financial_insights` outcome (`Except.error` = transport exception,
caught by the outer `try` of the service), and the persistence outcome of
`UserOperations.update_user` (`Except.error` = store write raised; the failed
write stores nothing).  Returns the list handed to the caller and the user
document after the call. -/
def generate_user_insights (userOpt : Option User) (transactions : List Transaction)
    (genai : Except Unit (Except Unit (List RawInsight))) (persist : Except Unit Unit)
    (fresh : Nat → String) (now : Nat) : List Insight × Option User :=
  match userOpt with
  | none => ([], userOpt)
  | some user =>
    if transactions.isEmpty then
      (generate_fallback_insights (some user) fresh now, some user)
    else
      match genai with
      | Except.error _ =>
        -- the transport exception reaches the service's outer try/except
        (generate_fallback_insights (some user) fresh now, some user)
      | Except.ok parsedOrFallback =>
        let raws :=
          match parsedOrFallback with
          | Except.error _ => genaiInsightsParseFallback
          | Except.ok l => l
        if raws.isEmpty then
          (generate_fallback_insights (some user) fresh now, some user)
        else
          let processed := processInsights fresh now raws
          let merged := mergeInsights user.insights processed now
          match persist with
          | Except.error _ =>
            -- update_user raised: caught by the outer try, nothing stored
            (generate_fallback_insights (some user) fresh now, some user)
          | Except.ok _ =>
            (processed, some { user with insights := merged })

/-! ## Anomaly detection
(`GenAIService.detect_anomalies`, `TransactionIntelligenceService.detect_anomalies`)

Both threshold checks compare `len(transactions)` — the number of ALL
transactions handed in, income included — against 10.  Results carry a flag
recording whether the remote `generate_content` call was issued. -/

structure RawAnomaly where
  category : Option String
  description : Option String
  severity : Option String
  amount : Option Rat
  deriving DecidableEq, Repr

/-- Lines 373-381 of `genai_services.py`: stamp `detection_date` and default
the required fields of one parsed anomaly. -/
def processAnomaly (now : Nat) (raw : RawAnomaly) : Anomaly :=
  { anomaly_id := none
    category := raw.category.getD "Unknown"
    description := raw.description.getD "Unusual spending pattern detected"
    severity := raw.severity.getD "medium"
    amount := raw.amount
    detection_date := some now
    is_acknowledged := none }

/-- `GenAIService.detect_anomalies`.  `remote` is the transport call (outside
the `try`); its payload is the JSON extraction outcome inside the `try`
(parse failure returns the empty list).  The `Bool` records whether the
remote call was issued. -/
def genai_detect_anomalies (transactions : List Transaction)
    (remote : Except Unit (Except Unit (List RawAnomaly))) (now : Nat) :
    Except Unit (List Anomaly) × Bool :=
  if transactions.length < 10 then (Except.ok [], false)
  else
    match remote with
    | Except.error e => (Except.error e, true)
    | Except.ok parsed =>
      match parsed with
      | Except.error _ => (Except.ok [], true)
      | Except.ok raws => (Except.ok (raws.map (processAnomaly now)), true)

/-- Lines 57-66 of `transaction_intelligence.py`: append each new anomaly to
the existing collection, assigning `ano{len+1}_{user_id[:8]}` ids (the length
grows while appending) and `is_acknowledged := false`.  Returns the new
collection and the enriched new anomalies (the list the service returns). -/
def appendAnomalies (uid : String) (now : Nat) (existing : List Anomaly) :
    List Anomaly → List Anomaly × List Anomaly
  | [] => (existing, [])
  | a :: rest =>
    let a' := { a with
      anomaly_id := some (a.anomaly_id.getD
        ("ano" ++ toString (existing.length + 1) ++ "_" ++ (uid.take 8)))
      detection_date := some (a.detection_date.getD now)
      is_acknowledged := some false }
    let (coll, enriched) := appendAnomalies uid now (existing ++ [a']) rest
    (coll, a' :: enriched)

/-- `TransactionIntelligenceService.detect_anomalies`.  Inputs: the stored
user, the 90-day transaction window, the remote outcome and `now`.  Returns
the list returned to the caller, the user document after the call, and
whether the remote advisor call was issued. -/
def detect_anomalies_service (userOpt : Option User)
    (transactions : List Transaction)
    (remote : Except Unit (Except Unit (List RawAnomaly))) (now : Nat) :
    List Anomaly × Option User × Bool :=
  if transactions.isEmpty || transactions.length < 10 then ([], userOpt, false)
  else
    match genai_detect_anomalies transactions remote now with
    | (Except.error _, called) =>
      -- the transport exception reaches the service's outer try/except
      ([], userOpt, called)
    | (Except.ok anomalies, called) =>
      if anomalies.isEmpty then (anomalies, userOpt, called)
      else
        match userOpt with
        | none => (anomalies, userOpt, called)
        | some user =>
          let (coll, enriched) := appendAnomalies user.user_id now user.anomalies anomalies
          (enriched, some { user with anomalies := coll }, called)

/-! ## Predictive expenses
(`GenAIService.generate_predictive_expenses`,
`TransactionIntelligenceService.predict_expenses`)

The recurring-group summary of lines 513-560 only shapes the prompt text and
does not influence the returned value, so it is not embedded.  Parsed
predictions are processed at lines 608-632: an item missing `description`,
`amount` or `due_date`, or whose `due_date` does not parse as a date, is
dropped; `confidence` defaults to 0.7 and is NOT compared against any
threshold. -/

structure RawPrediction where
  description : Option String
  amount : Option Rat
  /-- `none` = key absent; `some none` = present but not a parseable date. -/
  due_date : Option (Option Nat)
  category : Option String
  confidence : Option Rat
  is_recurring : Option Bool
  deriving DecidableEq, Repr

def processPrediction (now : Nat) (i : Nat) (pred : RawPrediction) :
    Option PredictedExpense :=
  match pred.description, pred.amount, pred.due_date with
  | some d, some a, some dd =>
    match dd with
    | none => none
    | some due =>
      some { expense_id := "exp" ++ toString (i + 1) ++ "_" ++ toString now
             description := d
             amount := a
             due_date := due
             category := pred.category.getD "Other"
             confidence := pred.confidence.getD (7/10)
             is_recurring := pred.is_recurring.getD true }
  | _, _, _ => none

def processPredictions (now : Nat) (preds : List RawPrediction) :
    List PredictedExpense :=
  preds.enum.filterMap fun ip => processPrediction now ip.1 ip.2

/-- `GenAIService.generate_predictive_expenses`. -/
def generate_predictive_expenses (transactions : List Transaction)
    (remote : Except Unit (Except Unit (List RawPrediction))) (now : Nat) :
    Except Unit (List PredictedExpense) :=
  if transactions.length < 10 then Except.ok []
  else
    match remote with
    | Except.error e => Except.error e
    | Except.ok parsed =>
      match parsed with
      | Except.error _ => Except.ok []
      | Except.ok preds => Except.ok (processPredictions now preds)

/-- `TransactionIntelligenceService.predict_expenses`: the returned list
wholesale replaces the stored `predicted_expenses` collection when non-empty
and the user exists. -/
def predict_expenses_service (userOpt : Option User)
    (transactions : List Transaction)
    (remote : Except Unit (Except Unit (List RawPrediction))) (now : Nat) :
    List PredictedExpense × Option User :=
  if transactions.isEmpty || transactions.length < 10 then ([], userOpt)
  else
    match generate_predictive_expenses transactions remote now with
    | Except.error _ => ([], userOpt)
    | Except.ok predicted =>
      if predicted.isEmpty then (predicted, userOpt)
      else
        match userOpt with
        | none => (predicted, userOpt)
        | some user => (predicted, some { user with predicted_expenses := predicted })

/-! ## Recommendation content refresh
(`EnhancedRecommendationService.refresh_recommendation_content`,
`RecommendationOperations.update_recommendation`)

`update_recommendation` is a MongoDB `update_one` with a `$set` of exactly
the keys `reason`, `score`, `updated_at` and `metadata`; it updates the first
document with the given `recommendation_id` and returns
`modified_count > 0`. -/

structure RefreshUpdate where
  reason : String
  score : Int
  updated_at : Nat
  metadata : RecMetadata
  deriving DecidableEq, Repr

def applyRefreshUpdate (u : RefreshUpdate) (r : Recommendation) : Recommendation :=
  { r with reason := u.reason, score := u.score,
           updated_at := some u.updated_at, metadata := u.metadata }

/-- `RecommendationOperations.update_recommendation` for the refresh call
site: `$set` on the first matching document; the returned `Bool` is
`modified_count > 0` (`false` when no document matches or the `$set` changes
nothing). -/
def update_recommendation (recId : String) (u : RefreshUpdate) :
    List Recommendation → List Recommendation × Bool
  | [] => ([], false)
  | r :: rs =>
    if r.recommendation_id = recId then
      let r' := applyRefreshUpdate u r
      (r' :: rs, decide (r' ≠ r))
    else
      let (rs', b) := update_recommendation recId u rs
      (r :: rs', b)

/-- `EnhancedRecommendationService.refresh_recommendation_content`.  Inputs:
the three collections (recommendations, users, products), the advisor outcome
for the reloaded user/product pair, `now` and the target id.  Returns the
success flag and the recommendation collection after the call. -/
def refresh_recommendation_content (recs : List Recommendation)
    (users : List User) (products : List Product)
    (advisor : Except Unit AdvisorReply) (now : Nat) (recId : String) :
    Bool × List Recommendation :=
  match recs.find? fun r => r.recommendation_id = recId with
  | none => (false, recs)
  | some rec =>
    match users.find? fun u => u.user_id = rec.user_id with
    | none => (false, recs)
    | some _user =>
      match products.find? fun p => p.product_id = rec.product_id with
      | none => (false, recs)
      | some _product =>
        match advisor with
        | Except.error _ =>
          -- generate_product_recommendation raised: the outer except returns False
          (false, recs)
        | Except.ok reply =>
          let upd : RefreshUpdate :=
            { reason := reply.recommendation_text
              score := reply.score
              updated_at := now
              metadata := { genai_generated := true, generation_time := now,
                            is_refresh := some true } }
          let (recs', ok) := update_recommendation recId upd recs
          (ok, recs')

/-! ## Amended predicates and concrete instances used by the theorems -/

/-- The amended C2 filter predicate: a product is included iff it is active
and, for each user attribute that is provided, the product-side criterion is
met — where `min_income`, `min_credit_score` and `risk_level` must EXIST on
the product (an absent one excludes), while absent age bounds never
exclude. -/
def eligibleAmended (income : Option Rat) (credit_score : Option Int)
    (risk_level : Option String) (age : Option Int) (p : Product) : Bool :=
  p.is_active &&
  (income.all fun inc => p.eligibility.min_income.any fun m => decide (m ≤ inc)) &&
  (credit_score.all fun cs =>
    p.eligibility.min_credit_score.any fun m => decide (m ≤ cs)) &&
  (risk_level.all fun r => p.eligibility.risk_level == some r) &&
  (age.all fun a =>
    (p.eligibility.target_age_min.all fun m => decide (m ≤ a)) &&
    (p.eligibility.target_age_max.all fun m => decide (a ≤ m)))

/-- An active product whose eligibility sub-document sets no criterion at
all. -/
def bareProduct : Product :=
  { product_id := "p0", name := "Bare", category := "Savings", description := ""
    features := [], is_active := true
    eligibility := { min_income := none, min_credit_score := none,
                     risk_level := none, target_age_min := none,
                     target_age_max := none } }

def emptyUserBase : User :=
  { user_id := "user-0001"
    financial_profile := { monthly_income := none, credit_score := none,
                           risk_profile := none, debt := none }
    profile := { age := none }
    preferred_categories := []
    financial_goals := []
    insights := []
    anomalies := []
    predicted_expenses := [] }

/-- A user whose four filter attributes are all provided. -/
def plainUser : User :=
  { emptyUserBase with
    financial_profile := { monthly_income := some 1000, credit_score := some 500,
                           risk_profile := some "moderate", debt := none }
    profile := { age := some 30 } }

/-- The C7 scenario user: income 80000, credit 750, risk moderate, age 30. -/
def scenarioUser : User :=
  { emptyUserBase with
    financial_profile := { monthly_income := some 80000, credit_score := some 750,
                           risk_profile := some "moderate", debt := none }
    profile := { age := some 30 } }

/-- The C7 scenario product: min_income 60000, min_credit_score 700, risk
moderate, target ages 25-45. -/
def scenarioProduct : Product :=
  { product_id := "p7", name := "Scenario", category := "Savings", description := ""
    features := [], is_active := true
    eligibility := { min_income := some 60000, min_credit_score := some 700,
                     risk_level := some "moderate", target_age_min := some 25,
                     target_age_max := some 45 } }

def mkExpenseTx (id : String) (amt : Rat) : Transaction :=
  { transaction_id := id, amount := amt, category := "Dining",
    merchant := "Cafe", description := none, timestamp := some 10 }

/-- Nine expense transactions. -/
def nineExpenses : List Transaction :=
  [mkExpenseTx "t1" (-10), mkExpenseTx "t2" (-10), mkExpenseTx "t3" (-10),
   mkExpenseTx "t4" (-10), mkExpenseTx "t5" (-10), mkExpenseTx "t6" (-10),
   mkExpenseTx "t7" (-10), mkExpenseTx "t8" (-10), mkExpenseTx "t9" (-10)]

/-- A 90-day window holding exactly 9 expense transactions plus one income
transaction (10 transactions in total). -/
def windowNineExpensesOneIncome : List Transaction :=
  nineExpenses ++ [mkExpenseTx "t10" 50]

def sampleRawAnomaly : RawAnomaly :=
  { category := some "Dining", description := some "Spending spike",
    severity := some "high", amount := some 300 }

/-- A remote prediction whose confidence 0.3 is below the 0.6 policy but whose
required fields are all present and valid. -/
def lowConfidencePrediction : RawPrediction :=
  { description := some "Netflix subscription", amount := some (1599/100),
    due_date := some (some 120), category := some "Entertainment",
    confidence := some (3/10), is_recurring := some true }

/-- The stored expense that `predict_expenses` derives from
`lowConfidencePrediction` at time 100. -/
def lowConfidenceStored : PredictedExpense :=
  { expense_id := "exp1_100", description := "Netflix subscription",
    amount := 1599/100, due_date := 120, category := "Entertainment",
    confidence := 3/10, is_recurring := true }

def mkStoredInsight (id : String) (created : Nat) : Insight :=
  { insight_id := id, category := "general", description := "stored",
    importance := "medium", created_at := some created, expires_at := some 100,
    is_read := false, is_acted_upon := none }

/-- Five existing, still-active stored insights (created at 1..5, expiring at
100). -/
def fiveStoredInsights : List Insight :=
  [mkStoredInsight "e1" 1, mkStoredInsight "e2" 2, mkStoredInsight "e3" 3,
   mkStoredInsight "e4" 4, mkStoredInsight "e5" 5]

def mkRawInsight (d : String) : RawInsight :=
  { category := some "spending", description := some d, importance := some "high" }

/-- Seven newly generated raw insights. -/
def sevenRawInsights : List RawInsight :=
  [mkRawInsight "n1", mkRawInsight "n2", mkRawInsight "n3", mkRawInsight "n4",
   mkRawInsight "n5", mkRawInsight "n6", mkRawInsight "n7"]

/-- Frame relation for the refresh operation: `r'` agrees with `r` on every
field except possibly `reason`, `score`, `updated_at` and the refresh
`metadata`. -/
def onlyRefreshFieldsChanged (r r' : Recommendation) : Prop :=
  r' = { r with reason := r'.reason, score := r'.score,
                updated_at := r'.updated_at, metadata := r'.metadata }

/-- An advisor that always answers with text "good" and score 80. -/
def constAdvisor : List Transaction → Product → Except Unit AdvisorReply :=
  fun _ _ => Except.ok { recommendation_text := "good", score := 80 }

def constFresh : Product → String := fun _ => "rid"

def sampleRecommendation : Recommendation :=
  mkRecommendation "rec-1" "user-0001" bareProduct "why" 82 7

/-! ## Theorems -/

theorem parseScore_eq (s : String) :
    parseScore s =
      if ((pyStrip s).toList.filter Char.isDigit).isEmpty then 75
      else max 0 (min (Int.ofNat (digitsValue ((pyStrip s).toList.filter Char.isDigit))) 100) :=
  rfl

theorem parseScore_nonneg (s : String) : 0 ≤ parseScore s := by
  rw [parseScore_eq]
  split
  · norm_num
  · exact le_max_left 0 _

theorem parseScore_le_100 (s : String) : parseScore s ≤ 100 := by
  rw [parseScore_eq]
  split
  · norm_num
  · exact max_le (by norm_num) (min_le_right _ _)

theorem parseScore_of_no_digits (s : String)
    (h : ((pyStrip s).toList.filter Char.isDigit).isEmpty = true) : parseScore s = 75 := by
  rw [parseScore_eq, if_pos h]

/-- Claim C8: for every remote response pair, `generate_product_recommendation`
returns the trimmed text and a score lying in [0,100], and when the score
response contains no digit (so `int` cannot parse it) the score is exactly
75. -/
theorem c8_explainProduct_score (t s : String) :
    generate_product_recommendation (Except.ok t) (Except.ok s) =
      Except.ok { recommendation_text := pyStrip t, score := parseScore s } ∧
    0 ≤ parseScore s ∧ parseScore s ≤ 100 ∧
    (((pyStrip s).toList.filter Char.isDigit).isEmpty = true → parseScore s = 75) := by
  exact ⟨rfl, parseScore_nonneg s, parseScore_le_100 s, parseScore_of_no_digits s⟩

/-- Witness for C8 at the concrete inputs "great fit" / "not a number". -/
theorem c8_explainProduct_score_witness :
    generate_product_recommendation (Except.ok " great fit ") (Except.ok "n/a") =
      Except.ok { recommendation_text := pyStrip " great fit ", score := parseScore "n/a" } ∧
    0 ≤ parseScore "n/a" ∧ parseScore "n/a" ≤ 100 ∧ parseScore "n/a" = 75 := by
  have h := c8_explainProduct_score " great fit " "n/a"
  exact ⟨h.1, h.2.1, h.2.2.1, h.2.2.2 (by decide)⟩

/-- Counterexample to claim C6: a transport failure of the first remote call
of `generate_product_recommendation` (a `generate_content` call outside any
`try`) propagates out of the adapter instead of degrading to a default. -/
theorem c6_counterexample_transport_propagates :
    generate_product_recommendation (Except.error ()) (Except.ok "80") =
      Except.error () := rfl

/-- Amended claim C6: whenever the remote transport calls return, the cited
adapter methods are total — parse failures degrade to the documented defaults
(score 75 is covered by C8; neutral sentiment with confidence 0.5; empty
anomaly list) and never propagate; only a transport failure raises past the
adapter (and the Orchestrator absorbs it per candidate, see C1). -/
theorem c6_amended_parse_failures_never_propagate :
    (∀ t s : String,
      (generate_product_recommendation (Except.ok t) (Except.ok s)).isOk = true) ∧
    (∀ (txs : List Transaction) (p : Except String ParsedSentiment),
      (analyze_sentiment txs (Except.ok p)).isOk = true) ∧
    (∀ (tx : Transaction) (txs : List Transaction) (msg : String),
      analyze_sentiment (tx :: txs) (Except.ok (Except.error msg)) =
        Except.ok { overall_sentiment := "neutral", confidence := 1/2,
                    financial_health := "stable",
                    explanation := "Could not analyze sentiment: " ++ msg }) ∧
    (∀ (txs : List Transaction) (p : Except Unit (List RawAnomaly)) (now : Nat),
      (genai_detect_anomalies txs (Except.ok p) now).1.isOk = true) := by
  refine ⟨fun t s => rfl, fun txs p => ?_, fun tx txs msg => ?_, fun txs p now => ?_⟩
  · unfold analyze_sentiment
    split
    · rfl
    · cases p <;> rfl
  · simp [analyze_sentiment]
  · unfold genai_detect_anomalies
    split
    · rfl
    · cases p <;> rfl

theorem matches_eq_eligibleAmended (income : Option Rat) (credit_score : Option Int)
    (risk_level : Option String) (age : Option Int) (p : Product) :
    matchesEligibilityQuery income credit_score risk_level age p =
      eligibleAmended income credit_score risk_level age p := by
  unfold matchesEligibilityQuery eligibleAmended
  cases income <;> cases credit_score <;> cases risk_level <;> cases age <;>
    cases hm : p.eligibility.min_income <;> cases hc : p.eligibility.min_credit_score <;>
      cases ta : p.eligibility.target_age_min <;>
        cases tb : p.eligibility.target_age_max <;>
          simp [Option.all, Option.any]

/-- Counterexample to claim C2: an active product that sets no eligibility
criterion at all is excluded by the filter when the user attributes are
provided, although the claim says a criterion absent on the product never
excludes it (the query requires the `min_income`/`min_credit_score`/
`risk_level` fields to exist). -/
theorem c2_counterexample_absent_criterion_excludes :
    eligibleSpec 1000 500 "moderate" 30 bareProduct = true ∧
    get_products_by_eligibility [bareProduct] (some 1000) (some 500)
      (some "moderate") (some 30) = [] := by
  constructor <;> rfl

/-- Amended claim C2: the Eligibility Filter includes a product iff it is
active and each provided user attribute meets the product criterion, where an
absent `min_income`, `min_credit_score` or `risk_level` on the product
EXCLUDES it whenever the corresponding user attribute is provided, while
absent age bounds never exclude; and when the filtered set is empty the
caller falls back to the full active catalog. -/
theorem c2_amended_eligibility_characterization :
    (∀ (catalog : List Product) (income : Option Rat) (credit_score : Option Int)
       (risk_level : Option String) (age : Option Int) (p : Product),
       p ∈ get_products_by_eligibility catalog income credit_score risk_level age ↔
         p ∈ catalog ∧ eligibleAmended income credit_score risk_level age p = true) ∧
    (∀ (u : User) (catalog : List Product),
       get_products_by_eligibility catalog u.financial_profile.monthly_income
         u.financial_profile.credit_score u.financial_profile.risk_profile
         u.profile.age = [] →
       preFilteredProducts u catalog = get_products_active catalog) := by
  constructor
  · intro catalog income credit_score risk_level age p
    rw [get_products_by_eligibility, List.mem_filter, matches_eq_eligibleAmended]
  · intro u catalog h
    simp [preFilteredProducts, h]

/-- Witness for C2 at a concrete catalog: with every user attribute provided
and a product without criteria the filtered set is empty, so the caller keeps
the full active catalog. -/
theorem c2_amended_eligibility_witness :
    (bareProduct ∈ get_products_by_eligibility [bareProduct] none none none none ↔
      bareProduct ∈ [bareProduct] ∧ eligibleAmended none none none none bareProduct = true) ∧
    preFilteredProducts plainUser [bareProduct] = get_products_active [bareProduct] := by
  constructor
  · exact c2_amended_eligibility_characterization.1 [bareProduct] none none none none
      bareProduct
  · exact c2_amended_eligibility_characterization.2 plainUser [bareProduct] (by rfl)

/-- Counterexample to claim C7: on a product that sets no eligibility
criterion, the implemented scorer awards only the age point (its income,
credit and risk bonuses are guarded by `min_income > 0`,
`min_credit_score > 0` and a non-empty risk level), so it differs from the
unguarded additive rule set stated in the claim. -/
theorem c7_counterexample_scorer_guards :
    basic_eligibility_score bareProduct plainUser ≠
      specHeuristicScore bareProduct plainUser := by decide

/-- Amended claim C7: the Heuristic Scorer is the stated additive rule set
except that the +1 income and +1 credit bonuses require the product to set a
positive minimum, and the +2 risk bonus requires a non-empty product risk
level (compared case-insensitively); the scenario user (income 80000, credit
750, moderate, age 30) against the scenario product (min_income 60000,
min_credit_score 700, moderate, ages 25-45) still scores at least 5. -/
theorem c7_amended_scorer_characterization :
    (∀ (p : Product) (u : User),
       basic_eligibility_score p u = amendedHeuristicScore p u) ∧
    5 ≤ basic_eligibility_score scenarioProduct scenarioUser := by
  constructor
  · intro p u
    simp only [basic_eligibility_score, amendedHeuristicScore]
    split_ifs <;> omega
  · decide

/-- Counterexample to claim C4: a 90-day window holding exactly 9 expense
transactions plus one income transaction has 10 transactions in total, so the
service DOES issue the advisor call and can return a non-empty anomaly list,
although the claim promises [] and no call whenever fewer than 10 expense
transactions exist. -/
theorem c4_counterexample_income_counts_toward_threshold :
    (windowNineExpensesOneIncome.filter fun t => decide (t.amount < 0)).length = 9 ∧
    (detect_anomalies_service none windowNineExpensesOneIncome
      (Except.ok (Except.ok [sampleRawAnomaly])) 20).2.2 = true ∧
    (detect_anomalies_service none windowNineExpensesOneIncome
      (Except.ok (Except.ok [sampleRawAnomaly])) 20).1 ≠ [] := by
  refine ⟨by decide, by decide, by decide⟩

/-- Amended claim C4: the threshold counts ALL transactions in the window
(income included): whenever the window holds fewer than 10 transactions the
service returns [], leaves the user untouched and issues no advisor call; in
particular a user whose window holds exactly 9 (expense) transactions gets
[]. -/
theorem c4_amended_threshold_counts_all_transactions
    (userOpt : Option User) (txs : List Transaction)
    (remote : Except Unit (Except Unit (List RawAnomaly))) (now : Nat)
    (h : txs.length < 10) :
    detect_anomalies_service userOpt txs remote now = ([], userOpt, false) := by
  simp [detect_anomalies_service, h]

/-- Witness for C4 at the concrete window of 9 expense transactions. -/
theorem c4_amended_threshold_witness :
    nineExpenses.length < 10 ∧
    detect_anomalies_service (some plainUser) nineExpenses
      (Except.ok (Except.ok [sampleRawAnomaly])) 20 = ([], some plainUser, false) :=
  ⟨by decide,
   c4_amended_threshold_counts_all_transactions (some plainUser) nineExpenses
     (Except.ok (Except.ok [sampleRawAnomaly])) 20 (by decide)⟩

/-- Claim C5, evaluated at the failing input: the caller performs no
confidence filtering, so a remote prediction with confidence 0.3 — below the
0.6 policy that the prompt itself documents — passes validation, is returned,
and wholesale replaces the stored `predicted_expenses` collection. -/
theorem c5_low_confidence_prediction_stored :
    predict_expenses_service (some plainUser) windowNineExpensesOneIncome
      (Except.ok (Except.ok [lowConfidencePrediction])) 100 =
      ([lowConfidenceStored],
        some { plainUser with predicted_expenses := [lowConfidenceStored] }) ∧
    lowConfidenceStored.confidence < 6/10 := by
  refine ⟨by rfl, by norm_num [lowConfidenceStored]⟩

theorem mergeInsights_length_le (existing newInsights : List Insight) (now : Nat) :
    (mergeInsights existing newInsights now).length ≤ 10 := by
  simp only [mergeInsights]
  split
  · simp [List.length_take]
  · omega

/-- Claim C3: after any insights merge the stored collection has length at
most 10; and in the scenario of 5 existing active insights plus 7 newly
generated ones, exactly the 10 most recent by `created_at` are kept (the 7
new ones, created at `now = 50`, followed by the 3 most recent stored
ones). -/
theorem c3_insights_merge_cap :
    (∀ (existing newInsights : List Insight) (now : Nat),
      (mergeInsights existing newInsights now).length ≤ 10) ∧
    mergeInsights fiveStoredInsights
        (processInsights (fun k => toString k) 50 sevenRawInsights) 50 =
      processInsights (fun k => toString k) 50 sevenRawInsights ++
        [mkStoredInsight "e5" 5, mkStoredInsight "e4" 4, mkStoredInsight "e3" 3] ∧
    (mergeInsights fiveStoredInsights
        (processInsights (fun k => toString k) 50 sevenRawInsights) 50).length = 10 := by
  refine ⟨mergeInsights_length_le, by decide, by decide⟩

/-- The candidate loop accepts, in order, exactly the qualified candidates
(advisor succeeded and score at least 60) until `count` of them are
collected. -/
theorem recommendLoop_eq (accept : Product → Option Recommendation) (count : Nat)
    (ps : List Product) (acc : List Recommendation) :
    recommendLoop accept count ps acc =
      if count ≤ acc.length then acc
      else acc ++ (ps.filterMap accept).take (count - acc.length) := by
  induction ps generalizing acc with
  | nil =>
    unfold recommendLoop
    split <;> simp
  | cons p ps ih =>
    unfold recommendLoop
    by_cases h : count ≤ acc.length
    · rw [if_pos h, if_pos h]
    · rw [if_neg h, if_neg h]
      cases hap : accept p with
      | none =>
        dsimp only
        rw [ih, if_neg h, List.filterMap_cons_none hap]
      | some r =>
        dsimp only
        rw [ih, List.filterMap_cons_some hap]
        by_cases h2 : count ≤ acc.length + 1
        · rw [if_pos (by simpa using h2)]
          have hc : count - acc.length = 1 := by omega
          rw [hc]
          simp
        · rw [if_neg (by simpa using h2)]
          have hc : count - acc.length = (count - (acc.length + 1)) + 1 := by omega
          rw [hc, List.take_succ_cons]
          simp

/-- Claim C1: the generate operation returns (and persists) exactly the first
`count` candidates whose advisor call succeeded with score at least 60 —
candidates scoring below 60 are skipped without counting and the loop
continues — so every persisted recommendation has score at least 60 and at
most `count` are persisted. -/
theorem c1_orchestrator_score_threshold (u : User) (txs : List Transaction)
    (catalog : List Product)
    (advisor : List Transaction → Product → Except Unit AdvisorReply)
    (fresh : Product → String) (count : Nat) (now : Nat) :
    generate_recommendations (some u) txs catalog advisor fresh count now =
      ((orchestratorCandidates u catalog count).filterMap
        (acceptCandidate u txs advisor fresh now)).take count ∧
    (∀ r ∈ generate_recommendations (some u) txs catalog advisor fresh count now,
      60 ≤ r.score) ∧
    (generate_recommendations (some u) txs catalog advisor fresh count now).length ≤
      count := by
  have hmain : generate_recommendations (some u) txs catalog advisor fresh count now =
      ((orchestratorCandidates u catalog count).filterMap
        (acceptCandidate u txs advisor fresh now)).take count := by
    unfold generate_recommendations
    dsimp only
    by_cases h : (get_products_active catalog).isEmpty
    · rw [if_pos h]
      unfold orchestratorCandidates
      rw [if_pos h]
      simp
    · rw [if_neg h, recommendLoop_eq]
      by_cases hc : count = 0
      · simp [hc]
      · rw [if_neg (by simp; omega)]
        simp
  refine ⟨hmain, ?_, ?_⟩
  · intro r hr
    rw [hmain] at hr
    have hr' := List.mem_of_mem_take hr
    obtain ⟨p, _, hp⟩ := List.mem_filterMap.mp hr'
    unfold acceptCandidate at hp
    cases hadv : advisor txs p with
    | error e => rw [hadv] at hp; exact absurd hp (by simp)
    | ok reply =>
      rw [hadv] at hp
      dsimp only at hp
      by_cases hs : reply.score < 60
      · rw [if_pos hs] at hp
        exact absurd hp (by simp)
      · rw [if_neg hs] at hp
        have : mkRecommendation (fresh p) u.user_id p reply.recommendation_text
            reply.score now = r := by simpa using hp
        rw [← this]
        unfold mkRecommendation
        dsimp only
        omega
  · rw [hmain]
    simp [List.length_take]

theorem onlyRefreshFieldsChanged_refl (r : Recommendation) :
    onlyRefreshFieldsChanged r r := rfl

theorem onlyRefreshFieldsChanged_apply (u : RefreshUpdate) (r : Recommendation) :
    onlyRefreshFieldsChanged r (applyRefreshUpdate u r) := rfl

theorem update_recommendation_forall₂ (recId : String) (u : RefreshUpdate)
    (recs : List Recommendation) :
    List.Forall₂ onlyRefreshFieldsChanged recs (update_recommendation recId u recs).1 := by
  induction recs with
  | nil => exact List.Forall₂.nil
  | cons r rs ih =>
    unfold update_recommendation
    by_cases h : r.recommendation_id = recId
    · rw [if_pos h]
      exact List.Forall₂.cons (onlyRefreshFieldsChanged_apply u r)
        (List.forall₂_same.mpr fun a _ => onlyRefreshFieldsChanged_refl a)
    · rw [if_neg h]
      cases hu : update_recommendation recId u rs with
      | mk rs' b =>
        dsimp only
        rw [hu] at ih
        exact List.Forall₂.cons (onlyRefreshFieldsChanged_refl r) ih

/-- Claim C9: refreshing a recommendation overwrites only `reason`, `score`
and the refresh metadata (`updated_at`, `metadata`) of the targeted record —
`recommendation_id`, `user_id`, `product_id`, `is_viewed`, `is_clicked`,
`feedback` and `conversion` are preserved, and all other records are
untouched — and the operation returns false without modifying the collection
when the recommendation, its user, or its product cannot be found. -/
theorem c9_refresh_frame (recs : List Recommendation) (users : List User)
    (products : List Product) (advisor : Except Unit AdvisorReply) (now : Nat)
    (recId : String) :
    List.Forall₂ onlyRefreshFieldsChanged recs
      (refresh_recommendation_content recs users products advisor now recId).2 ∧
    ((recs.find? fun r => r.recommendation_id = recId) = none →
      refresh_recommendation_content recs users products advisor now recId =
        (false, recs)) ∧
    (∀ rec, (recs.find? fun r => r.recommendation_id = recId) = some rec →
      (users.find? fun us => us.user_id = rec.user_id) = none →
      refresh_recommendation_content recs users products advisor now recId =
        (false, recs)) ∧
    (∀ rec, (recs.find? fun r => r.recommendation_id = recId) = some rec →
      (products.find? fun p => p.product_id = rec.product_id) = none →
      refresh_recommendation_content recs users products advisor now recId =
        (false, recs)) := by
  refine ⟨?_, ?_, ?_, ?_⟩
  · unfold refresh_recommendation_content
    cases h1 : recs.find? fun r => r.recommendation_id = recId with
    | none => exact List.forall₂_same.mpr fun a _ => onlyRefreshFieldsChanged_refl a
    | some rec =>
      dsimp only
      cases h2 : users.find? fun us => us.user_id = rec.user_id with
      | none => exact List.forall₂_same.mpr fun a _ => onlyRefreshFieldsChanged_refl a
      | some usr =>
        dsimp only
        cases h3 : products.find? fun p => p.product_id = rec.product_id with
        | none => exact List.forall₂_same.mpr fun a _ => onlyRefreshFieldsChanged_refl a
        | some prod =>
          dsimp only
          cases advisor with
          | error e =>
            exact List.forall₂_same.mpr fun a _ => onlyRefreshFieldsChanged_refl a
          | ok reply =>
            dsimp only
            cases hu : update_recommendation recId
                { reason := reply.recommendation_text, score := reply.score,
                  updated_at := now,
                  metadata := { genai_generated := true, generation_time := now,
                                is_refresh := some true } } recs with
            | mk recs' b =>
              dsimp only
              have hf := update_recommendation_forall₂ recId
                { reason := reply.recommendation_text, score := reply.score,
                  updated_at := now,
                  metadata := { genai_generated := true, generation_time := now,
                                is_refresh := some true } } recs
              rw [hu] at hf
              exact hf
  · intro h
    unfold refresh_recommendation_content
    rw [h]
  · intro rec h1 h2
    unfold refresh_recommendation_content
    rw [h1]
    dsimp only
    rw [h2]
  · intro rec h1 h3
    unfold refresh_recommendation_content
    rw [h1]
    dsimp only
    cases h2 : users.find? fun us => us.user_id = rec.user_id with
    | none => rfl
    | some usr =>
      dsimp only
      rw [h3]

/-- Witness for C9: a collection holding one recommendation whose user no
longer exists — the refresh reports failure and leaves the collection
untouched. -/
theorem c9_refresh_frame_witness :
    refresh_recommendation_content [sampleRecommendation] [] []
      (Except.ok { recommendation_text := "t", score := 70 }) 9 "rec-1" =
      (false, [sampleRecommendation]) :=
  (c9_refresh_frame [sampleRecommendation] [] []
      (Except.ok { recommendation_text := "t", score := 70 }) 9 "rec-1").2.2.1
    sampleRecommendation (by rfl) (by rfl)

/-- Implicit claim C10: when the 90-day window holds no transactions, or when
insight generation fails (transport error or an empty generated list), or
when persistence fails, `generate_user_insights` hands the deterministic
fallback insights to the caller but leaves the stored user document — its
insight collection included — unchanged; fallback insights are never
persisted and expired stored insights are not purged on those paths. -/
theorem c10_fallback_not_persisted (user : User) (txs : List Transaction)
    (genai : Except Unit (Except Unit (List RawInsight))) (persist : Except Unit Unit)
    (fresh : Nat → String) (now : Nat) :
    (txs = [] →
      generate_user_insights (some user) txs genai persist fresh now =
        (generate_fallback_insights (some user) fresh now, some user)) ∧
    (∀ e, genai = Except.error e →
      generate_user_insights (some user) txs genai persist fresh now =
        (generate_fallback_insights (some user) fresh now, some user)) ∧
    (genai = Except.ok (Except.ok []) →
      generate_user_insights (some user) txs genai persist fresh now =
        (generate_fallback_insights (some user) fresh now, some user)) ∧
    (∀ e, persist = Except.error e →
      generate_user_insights (some user) txs genai persist fresh now =
        (generate_fallback_insights (some user) fresh now, some user)) := by
  refine ⟨?_, ?_, ?_, ?_⟩
  · intro h
    subst h
    rfl
  · intro e h
    subst h
    unfold generate_user_insights
    dsimp only
    by_cases ht : txs.isEmpty
    · rw [if_pos ht]
    · rw [if_neg ht]
  · intro h
    subst h
    unfold generate_user_insights
    dsimp only
    by_cases ht : txs.isEmpty
    · rw [if_pos ht]
    · rw [if_neg ht]
      rfl
  · intro e h
    subst h
    unfold generate_user_insights
    dsimp only
    by_cases ht : txs.isEmpty
    · rw [if_pos ht]
    · rw [if_neg ht]
      cases genai with
      | error e2 => rfl
      | ok parsed =>
        dsimp only
        cases parsed with
        | error e3 =>
          dsimp only [genaiInsightsParseFallback]
          split
          · rfl
          · rfl
        | ok raws =>
          dsimp only
          by_cases hr : raws.isEmpty
          · rw [if_pos hr]
          · rw [if_neg hr]

/-- Witness for C10: a concrete empty window leaves the user unchanged and
returns the fallback insights. -/
theorem c10_fallback_not_persisted_witness :
    generate_user_insights (some plainUser) [] (Except.ok (Except.ok []))
      (Except.ok ()) (fun k => toString k) 50 =
      (generate_fallback_insights (some plainUser) (fun k => toString k) 50,
        some plainUser) :=
  (c10_fallback_not_persisted plainUser [] (Except.ok (Except.ok []))
      (Except.ok ()) (fun k => toString k) 50).1 rfl

/-- Witness for C1: a concrete run in which the advisor scores the single
candidate 80 — the produced recommendation is a member of the result, its
score is at least 60, and at most one recommendation is returned. -/
theorem c1_orchestrator_score_threshold_witness :
    60 ≤ (mkRecommendation "rid" "user-0001" scenarioProduct "good" 80 0).score ∧
    (generate_recommendations (some scenarioUser) [] [scenarioProduct] constAdvisor
      constFresh 1 0).length ≤ 1 :=
  ⟨(c1_orchestrator_score_threshold scenarioUser [] [scenarioProduct] constAdvisor
      constFresh 1 0).2.1
    (mkRecommendation "rid" "user-0001" scenarioProduct "good" 80 0) (by decide),
   (c1_orchestrator_score_threshold scenarioUser [] [scenarioProduct] constAdvisor
      constFresh 1 0).2.2⟩

end Aidhp
